import Mathlib

/-!
Verification development for the SmartThings OAuth token lifecycle and
device-capture workflow of this repository.  C strings are modelled as
`List Char`; file contents are the exact character sequence the C code
writes; buffered reads (`fgets`) and bounded copies (`strncpy`,
`sscanf` width specifiers) are modelled with their explicit size caps.
HTTP transfers are modelled by passing the response (status code and
body, the body `none` when the transfer failed) as an oracle argument.
-/

set_option maxRecDepth 10000

abbrev Str := List Char

/-- C `strstr`: the suffix of `l` starting at the first occurrence of
`pat`, or `none` when `pat` does not occur in `l`. -/
def strstr (pat : Str) : Str → Option Str
  | [] => if pat.isPrefixOf [] then some [] else none
  | c :: tl => if pat.isPrefixOf (c :: tl) then some (c :: tl) else strstr pat tl

/-- One C `fgets` read with remaining buffer capacity `n`: takes at most
`n` characters, stopping after (and including) the first newline. -/
def takeLine : Str → Nat → Str × Str
  | [], _ => ([], [])
  | c :: cs, n =>
    if n = 0 then ([], c :: cs)
    else if c = '\n' then ([c], cs)
    else
      let p := takeLine cs (n - 1)
      (c :: p.1, p.2)

/-- Worker for `fgetsSplitF`, structurally recursive on a fuel bound:
each `fgets` consumes at least one character, so `l.length` units of
fuel always suffice. -/
def fgetsSplitAux (cap : Nat) : Nat → Str → List Str
  | _, [] => []
  | 0, _ :: _ => []
  | fuel + 1, c :: cs =>
    (takeLine (c :: cs) (max cap 1)).1 ::
      fgetsSplitAux cap fuel (takeLine (c :: cs) (max cap 1)).2

/-- Splitting a file into the successive lines produced by a loop of
`fgets` calls with a buffer holding `cap` characters (plus NUL). -/
def fgetsSplitF (cap : Nat) (l : Str) : List Str := fgetsSplitAux cap l.length l

/-!
## OAuth response parsing (src/unnamed/part_000 `token_request`,
src/smartthings_v2.c `refresh_token` / `exchange_authorization_code`)

The C extracts a field with
`sscanf(hit, "\"key\"%*[^:]:\"%N[^\"]\"", out)` applied at the first
`strstr` hit of the quoted key.  `%*[^:]` must match at least one
non-colon character, then the literal colon and opening quote must
follow, then `%N[^\"]` must match at least one character and stores at
most `N` of them.  On any matching failure nothing is stored. -/
def scanTokenValue (cap : Nat) (key : Str) (s : Str) : Option Str :=
  let rest := s.drop key.length
  let skip := rest.takeWhile (fun c => c != ':')
  if skip.isEmpty then none
  else
    match rest.drop skip.length with
    | ':' :: '"' :: rest2 =>
      let v := rest2.takeWhile (fun c => c != '"')
      if v.isEmpty then none else some (v.take cap)
    | _ => none

/-- Field extraction as performed on a token-endpoint response body:
`strstr` for the quoted key, then the `sscanf` scan at the hit. -/
def extractJsonField (cap : Nat) (key : Str) (body : Str) : Option Str :=
  match strstr key body with
  | none => none
  | some s => scanTokenValue cap key s

def accessKey : Str := "\"access_token\"".toList

def refreshKey : Str := "\"refresh_token\"".toList

/-- The `TokenData` struct of src/unnamed/part_000 (field-scoped static `TOKENS`). -/
structure TokenData where
  client_id : Str
  client_secret : Str
  refresh_token : Str
  access_token : Str
  auth_code : Str
  loaded : Bool
deriving DecidableEq, Repr

/-- The exact file content `token_save` (part_000) writes:
`"client_id=%s\nclient_secret=%s\nrefresh_token=%s\naccess_token=%s\nauth_code=%s\n"`. -/
def token_save_content (t : TokenData) : Str :=
  ("client_id".toList ++ '=' :: t.client_id) ++ '\n' ::
    (("client_secret".toList ++ '=' :: t.client_secret) ++ '\n' ::
      (("refresh_token".toList ++ '=' :: t.refresh_token) ++ '\n' ::
        (("access_token".toList ++ '=' :: t.access_token) ++ '\n' ::
          (("auth_code".toList ++ '=' :: t.auth_code) ++ '\n' :: []))))

/-- src/unnamed/part_000 `token_request`: POSTs to the OAuth endpoint
(the transfer's outcome is the oracle `response`, `none` when
`curl_easy_perform` failed or no body byte arrived), scans
`access_token` (width 4095) and `refresh_token` (width 1023) into the
in-memory `TokenData`, fails if the in-memory `access_token` is empty
afterwards, and otherwise calls `token_save`.  Returns
(result, in-memory tokens after, persisted store after). -/
def token_request (t : TokenData) (store : Option Str) (response : Option Str) :
    Bool × TokenData × Option Str :=
  match response with
  | none => (false, t, store)
  | some body =>
    let t1 :=
      match extractJsonField 4095 accessKey body with
      | some v => { t with access_token := v }
      | none => t
    let t2 :=
      match extractJsonField 1023 refreshKey body with
      | some v => { t1 with refresh_token := v }
      | none => t1
    if t2.access_token.isEmpty then (false, t2, store)
    else (true, t2, some (token_save_content t2))

/-- The `TokenData` struct of the second part of src/smartthings_v2.c
(`load_tokens`/`save_tokens`/`exchange_authorization_code`). -/
structure TokenDataV2 where
  client_id : Str
  client_secret : Str
  refresh_token : Str
  access_token : Str
deriving DecidableEq, Repr

/-- File content written by `save_tokens` (smartthings_v2.c):
four `key=value` lines for client_id, client_secret, refresh_token,
access_token. -/
def save_tokens_v2_content (t : TokenDataV2) : Str :=
  ("client_id".toList ++ '=' :: t.client_id) ++ '\n' ::
    (("client_secret".toList ++ '=' :: t.client_secret) ++ '\n' ::
      (("refresh_token".toList ++ '=' :: t.refresh_token) ++ '\n' ::
        (("access_token".toList ++ '=' :: t.access_token) ++ '\n' :: [])))

/-- src/smartthings_v2.c `exchange_authorization_code`: POSTs the
authorization-code grant, scans both fields, then calls `save_tokens`
unconditionally and only afterwards reports success iff the in-memory
`access_token` is non-empty. -/
def exchange_authorization_code (t : TokenDataV2) (store : Option Str)
    (response : Option Str) : Bool × TokenDataV2 × Option Str :=
  match response with
  | none => (false, t, store)
  | some body =>
    let t1 :=
      match extractJsonField 4095 accessKey body with
      | some v => { t with access_token := v }
      | none => t
    let t2 :=
      match extractJsonField 1023 refreshKey body with
      | some v => { t1 with refresh_token := v }
      | none => t1
    (!t2.access_token.isEmpty, t2, some (save_tokens_v2_content t2))

/-!
## Download transport (src/unnamed/part_000 and src/smartthings_v2.c
`http_download_file`)

The destination file is `fs : Option Str` (`none` = absent).  `written`
is whatever the transfer wrote into the freshly truncated file before
finishing or failing. -/

/-- part_000 `http_download_file`: sets `CURLOPT_FAILONERROR` (HTTP
status ≥ 400 turns into a curl error) and `unlink`s the destination
when `curl_easy_perform` did not return `CURLE_OK`. -/
def http_download_file (curlInit fopenOk transportOk : Bool) (httpCode : Nat)
    (written : Str) (fs : Option Str) : Bool × Option Str :=
  if curlInit = false then (false, fs)
  else if fopenOk = false then (false, fs)
  else if transportOk && decide (httpCode < 400) then (true, some written)
  else (false, none)

/-- smartthings_v2.c `http_download_file`: no `CURLOPT_FAILONERROR`, no
`unlink`; success is `res == CURLE_OK` alone, and on failure the
partially written file stays at the destination. -/
def http_download_file_v2 (curlInit fopenOk transportOk : Bool)
    (written : Str) (fs : Option Str) : Bool × Option Str :=
  if curlInit = false then (false, fs)
  else if fopenOk = false then (false, fs)
  else if transportOk then (true, some written)
  else (false, some written)

/-!
## Token Store of src/unnamed/part_010 (`save_tokens` / `load_tokens`)

`token_data_t` buffers: client_id[512], client_secret[512],
auth_code[256], access_token[4096], refresh_token[2048],
device_id[128]; `load_tokens` reads with `fgets(line, 2048)`, splits at
the first `=`, truncates the value at the first CR or LF
(`strcspn(val, "\r\n")`) and copies with `strncpy(dst, val, cap-1)`
into the zero-initialised struct. -/
structure token_data_t where
  client_id : Str
  client_secret : Str
  auth_code : Str
  access_token : Str
  refresh_token : Str
  device_id : Str
deriving DecidableEq, Repr

def token_data_empty : token_data_t := ⟨[], [], [], [], [], []⟩

/-- File content written by part_010 `save_tokens`: six `key=value`
lines in the order client_id, client_secret, auth_code, access_token,
refresh_token, device_id. -/
def save_tokens_content (t : token_data_t) : Str :=
  ("client_id".toList ++ '=' :: t.client_id) ++ '\n' ::
    (("client_secret".toList ++ '=' :: t.client_secret) ++ '\n' ::
      (("auth_code".toList ++ '=' :: t.auth_code) ++ '\n' ::
        (("access_token".toList ++ '=' :: t.access_token) ++ '\n' ::
          (("refresh_token".toList ++ '=' :: t.refresh_token) ++ '\n' ::
            (("device_id".toList ++ '=' :: t.device_id) ++ '\n' :: [])))))

/-- The `strncpy(dst, val, sizeof(dst)-1)` assignments of part_010
`load_tokens`, keyed on the text before the first `=`. -/
def assignField (t : token_data_t) (k v : Str) : token_data_t :=
  if k = "client_id".toList then { t with client_id := v.take 511 }
  else if k = "client_secret".toList then { t with client_secret := v.take 511 }
  else if k = "auth_code".toList then { t with auth_code := v.take 255 }
  else if k = "access_token".toList then { t with access_token := v.take 4095 }
  else if k = "refresh_token".toList then { t with refresh_token := v.take 2047 }
  else if k = "device_id".toList then { t with device_id := v.take 127 }
  else t

/-- One loop iteration of part_010 `load_tokens` on one `fgets` line:
skip the line when it has no `=`, otherwise split at the first `=` and
truncate the value at the first CR/LF. -/
def parseLine (t : token_data_t) (line : Str) : token_data_t :=
  let k := line.takeWhile (fun c => c != '=')
  if k.length = line.length then t
  else
    assignField t k
      ((line.drop (k.length + 1)).takeWhile (fun c => c != '\r' && c != '\n'))

/-- part_010 `load_tokens` applied to an existing file with the given
content (the caller passes a zero-initialised struct). -/
def load_tokens (content : Str) (t : token_data_t) : token_data_t :=
  (fgetsSplitF 2047 content).foldl parseLine t

/-- part_010 `check_tokens_and_refresh`: counts of refresh and
auth-code-exchange HTTP attempts, with their outcomes as oracles.  A
non-empty in-memory `access_token` is accepted immediately. -/
def check_tokens_and_refresh (t : token_data_t) (refreshOk exchangeOk : Bool) :
    Bool × Nat × Nat :=
  if t.access_token.isEmpty then
    if !t.refresh_token.isEmpty then (refreshOk, 1, 0)
    else if !t.auth_code.isEmpty then (exchangeOk, 0, 1)
    else (false, 0, 0)
  else (true, 0, 0)

inductive EcoreCb where
  | renew
  | cancel
deriving DecidableEq, Repr

/-- part_010 `refresh_timer_cb`: reloads the token file each tick; when
the load succeeds it attempts one refresh whose outcome is ignored.
Returns the Ecore callback result and the number of refresh attempts.
It returns `ECORE_CALLBACK_RENEW` on every path. -/
def refresh_timer_cb (loadOk : Bool) (_refreshOk : Bool) : EcoreCb × Nat :=
  if loadOk then (EcoreCb.renew, 1) else (EcoreCb.renew, 0)

def REFRESH_INTERVAL_HOURS : Nat := 24

/-- The period passed to `ecore_timer_add` in part_010 `app_create`:
`REFRESH_INTERVAL_HOURS*3600` seconds. -/
def refresh_timer_period : Nat := REFRESH_INTERVAL_HOURS * 3600

/-- part_010 `app_create` after GUI setup: when the token file loads,
credentials are checked and a capture attempted, and the 24h refresh
timer is scheduled regardless of those outcomes; when the load fails
the function returns before scheduling.  Result: (timer scheduled,
its period in seconds). -/
def app_create (loadOk _checkOk _captureOk : Bool) : Bool × Nat :=
  if loadOk = false then (false, 0)
  else (true, refresh_timer_period)

/-!
## Token validation and first-run initialisation
(src/val_token.c, src/tokens.c, src/unnamed/part_007)
-/

/-- src/val_token.c `validate_access_token`: rejects tokens shorter
than 10 characters without any HTTP call, then issues the device-status
GET (`deviceResp` is its body, `none` when the request failed) and
accepts iff the body mentions `components` or `status`. -/
def validate_access_token (token : Str) (deviceResp : Option Str) : Bool :=
  if token.length < 10 then false
  else
    match deviceResp with
    | none => false
    | some resp =>
      (strstr "components".toList resp).isSome || (strstr "status".toList resp).isSome

/-- part_007 `validate_access_token`: same shape, but GETs the device
list and looks for `items`. -/
def validate_access_token_p7 (token : Str) (listResp : Option Str) : Bool :=
  if token.length < 10 then false
  else
    match listResp with
    | none => false
    | some resp => (strstr "items".toList resp).isSome

/-- Outcome of an `initialize_token_file` run.  `netCalls` counts HTTP
requests issued (validation GETs and refresh POSTs); `seeded` records
that the bundled resource file was copied to the writable location;
`usedStored` records that the pre-existing stored access token was
accepted as-is (the validated branch). -/
structure InitResult where
  ok : Bool
  netCalls : Nat
  seeded : Bool
  usedStored : Bool
  dataFile : Option Str
  accessToken : Option Str
deriving DecidableEq, Repr

/-- src/tokens.c `initialize_token_file`.  Oracles: `dataFile` is the
writable token.txt (`none` = absent), `resFile` the bundled template,
`readOk`/`readTok` the outcome of `read_kv_file` on the existing file,
`deviceResp` the validation GET body, `refreshOk`/`refreshedTok` the
outcome of `refresh_token_c`, `writeOk` the outcome of `write_kv_file`,
`dstOk` whether the destination of the copy could be opened, and
`readOk2`/`readTok2` the outcome of `read_kv_file` on the copied file.
When the file exists: read, validate (one GET unless the token is too
short for `validate_access_token` to issue it), on failure refresh (one
POST) and persist.  When it does not exist: copy the resource file and
return without any network activity.  The content a `write_kv_file`
after a refresh leaves in the store is abstracted to the refreshed
token value (its exact serialisation is irrelevant here). -/
def initialize_token_file (dataFile resFile : Option Str) (readOk : Bool)
    (readTok : Str) (deviceResp : Option Str) (refreshOk : Bool)
    (refreshedTok : Str) (writeOk dstOk readOk2 : Bool) (readTok2 : Str) :
    InitResult :=
  match dataFile with
  | some content =>
    if readOk = false then
      { ok := false, netCalls := 0, seeded := false, usedStored := false,
        dataFile := some content, accessToken := none }
    else if validate_access_token readTok deviceResp then
      { ok := true, netCalls := if readTok.length < 10 then 0 else 1,
        seeded := false, usedStored := true, dataFile := some content,
        accessToken := some readTok }
    else if refreshOk then
      if writeOk then
        { ok := true, netCalls := (if readTok.length < 10 then 0 else 1) + 1,
          seeded := false, usedStored := false, dataFile := some refreshedTok,
          accessToken := some refreshedTok }
      else
        { ok := false, netCalls := (if readTok.length < 10 then 0 else 1) + 1,
          seeded := false, usedStored := false, dataFile := some content,
          accessToken := none }
    else
      { ok := false, netCalls := (if readTok.length < 10 then 0 else 1) + 1,
        seeded := false, usedStored := false, dataFile := some content,
        accessToken := none }
  | none =>
    match resFile with
    | none =>
      { ok := false, netCalls := 0, seeded := false, usedStored := false,
        dataFile := none, accessToken := none }
    | some rc =>
      if dstOk = false then
        { ok := false, netCalls := 0, seeded := false, usedStored := false,
          dataFile := none, accessToken := none }
      else
        { ok := true, netCalls := 0, seeded := true, usedStored := false,
          dataFile := some rc,
          accessToken := if readOk2 then some readTok2 else none }

/-- The seeding tail of part_007 `initialize_token_file` (also reached
by fall-through when the existing file could not be read): copy the
resource file, re-read it and immediately attempt one refresh POST;
without a successful refresh the whole initialisation fails. -/
def p7_seed (cur resFile : Option Str) (dstOk readOk2 refreshOk : Bool)
    (refreshedTok : Str) : InitResult :=
  match resFile with
  | none =>
    { ok := false, netCalls := 0, seeded := false, usedStored := false,
      dataFile := cur, accessToken := none }
  | some rc =>
    if dstOk = false then
      { ok := false, netCalls := 0, seeded := false, usedStored := false,
        dataFile := cur, accessToken := none }
    else if readOk2 then
      if refreshOk then
        { ok := true, netCalls := 1, seeded := true, usedStored := false,
          dataFile := some refreshedTok, accessToken := some refreshedTok }
      else
        { ok := false, netCalls := 1, seeded := true, usedStored := false,
          dataFile := some rc, accessToken := none }
    else
      { ok := false, netCalls := 0, seeded := true, usedStored := false,
        dataFile := some rc, accessToken := none }

/-- src/unnamed/part_007 `initialize_token_file`: when the writable
file exists it is read and validated (refresh on failure); when it is
absent (or unreadable, by fall-through) the resource file is copied and
a refresh is attempted immediately after seeding. -/
def initialize_token_file_p7 (dataFile resFile : Option Str) (readOk : Bool)
    (readTok : Str) (listResp : Option Str) (refreshOk : Bool)
    (refreshedTok : Str) (dstOk readOk2 : Bool) : InitResult :=
  match dataFile with
  | some content =>
    if readOk = false then
      p7_seed (some content) resFile dstOk readOk2 refreshOk refreshedTok
    else if validate_access_token_p7 readTok listResp then
      { ok := true, netCalls := if readTok.length < 10 then 0 else 1,
        seeded := false, usedStored := true, dataFile := some content,
        accessToken := some readTok }
    else if refreshOk then
      { ok := true, netCalls := (if readTok.length < 10 then 0 else 1) + 1,
        seeded := false, usedStored := false, dataFile := some refreshedTok,
        accessToken := some refreshedTok }
    else
      { ok := false, netCalls := (if readTok.length < 10 then 0 else 1) + 1,
        seeded := false, usedStored := false, dataFile := some content,
        accessToken := none }
  | none => p7_seed none resFile dstOk readOk2 refreshOk refreshedTok

/-!
## Capture workflow (src/unnamed/part_000 `perform_api_call`,
`take_image_capture`; same retry structure in src/smartthings_v2.c)
-/

/-- An HTTP exchange as observed by the caller of `http_request`:
the body (`NULL` = `none` when `curl_easy_perform` failed) and the
status code (`0` when the transfer failed). -/
structure HttpResp where
  body : Option Str
  code : Nat
deriving DecidableEq, Repr

def is2xx (c : Nat) : Bool := decide (200 ≤ c) && decide (c < 300)

/-- Trace of one `perform_api_call` invocation. -/
structure ApiCallRes where
  ok : Bool
  requests : Nat
  refreshes : Nat
  finalCode : Nat
  response : Option Str
deriving DecidableEq, Repr

/-- part_000 `perform_api_call`: after the URL/device/token guards, the
request is issued once (`r1`); on status 401 exactly one
`token_refresh` is attempted (`refreshOk` its outcome) and, only when
it succeeded, the request is reissued once (`r2`).  The result is
`resp != NULL && 200 <= code < 300` on the last response.  `token` is
the token `get_access_token` resolved (already non-empty or the guard
fails). -/
def perform_api_call (urlOk deviceOk : Bool) (token : Str) (r1 : HttpResp)
    (refreshOk : Bool) (r2 : HttpResp) : ApiCallRes :=
  if urlOk = false then ⟨false, 0, 0, 0, none⟩
  else if deviceOk = false then ⟨false, 0, 0, 0, none⟩
  else if token.isEmpty then ⟨false, 0, 0, 0, none⟩
  else if r1.code = 401 then
    if refreshOk then
      ⟨r2.body.isSome && is2xx r2.code, 2, 1, r2.code, r2.body⟩
    else
      ⟨r1.body.isSome && is2xx r1.code, 1, 1, r1.code, r1.body⟩
  else
    ⟨r1.body.isSome && is2xx r1.code, 1, 0, r1.code, r1.body⟩

def httpsLit : Str := "https://".toList

/-- The URL extraction inside part_000 `take_image_capture`:
`strstr(status, "https://")` then `sscanf(found, "%1023[^\"]", buf)` —
the characters from the first occurrence of `https://` up to (not
including) the next `"`, capped at 1023 characters; `none` when no
`https://` occurs (or the scan stored nothing). -/
def extract_image_url (status : Str) : Option Str :=
  match strstr httpsLit status with
  | none => none
  | some s =>
    let u := (s.takeWhile (fun c => c != '"')).take 1023
    if u.isEmpty then none else some u

/-- Trace of one `take_image_capture` run. -/
structure CaptureTrace where
  ok : Bool
  commandCalls : Nat
  statusCalls : Nat
  cmdRequests : Nat
  stRequests : Nat
deriving DecidableEq, Repr

/-- part_000 `take_image_capture`: one `perform_api_call` for the
take-image command, then (on success) one `perform_api_call` for the
device status, URL extraction and the download (`dlOk` its outcome).
Each step's HTTP responses are its own oracles; the command step is
never re-run because of a later 401. -/
def take_image_capture (token : Str) (cmdR1 : HttpResp) (cmdRef : Bool)
    (cmdR2 : HttpResp) (stR1 : HttpResp) (stRef : Bool) (stR2 : HttpResp)
    (dlOk : Bool) : CaptureTrace :=
  let c := perform_api_call true true token cmdR1 cmdRef cmdR2
  if c.ok = false then
    ⟨false, 1, 0, c.requests, 0⟩
  else
    let s := perform_api_call true true token stR1 stRef stR2
    if s.ok = false then
      ⟨false, 1, 1, c.requests, s.requests⟩
    else
      match s.response with
      | none => ⟨false, 1, 1, c.requests, s.requests⟩
      | some body =>
        match extract_image_url body with
        | none => ⟨false, 1, 1, c.requests, s.requests⟩
        | some _ => ⟨dlOk, 1, 1, c.requests, s.requests⟩

/-!
## part_000 in-memory token loading (`parse_kv_line`, `token_load`)
-/

/-- part_000 `parse_kv_line`: split at the first `=` (no `=` yields two
empty strings), cap the key at 255 characters, skip spaces and tabs
after the `=`, and truncate the value at the first CR/LF, capped at
4095 characters. -/
def parse_kv_line (line : Str) : Str × Str :=
  let k0 := line.takeWhile (fun c => c != '=')
  if k0.length = line.length then ([], [])
  else
    let v0 := (line.drop (k0.length + 1)).dropWhile (fun c => c == ' ' || c == '\t')
    (k0.take 255, (v0.takeWhile (fun c => c != '\r' && c != '\n')).take 4095)

/-- One loop iteration of part_000 `token_load` over one `fgets(8192)`
line: the `strncpy(dst, val, sizeof(dst)-1)` assignments. -/
def token_load_line (t : TokenData) (line : Str) : TokenData :=
  let kv := parse_kv_line line
  if kv.1 = "client_id".toList then { t with client_id := kv.2.take 255 }
  else if kv.1 = "client_secret".toList then { t with client_secret := kv.2.take 255 }
  else if kv.1 = "refresh_token".toList then { t with refresh_token := kv.2.take 1023 }
  else if kv.1 = "access_token".toList then { t with access_token := kv.2.take 4095 }
  else if kv.1 = "auth_code".toList then { t with auth_code := kv.2.take 63 }
  else t

/-- part_000 `token_load`: returns immediately when `t->loaded` is
already set; otherwise zeroes the struct, and (when a data path is
available) parses the token file when present.  The second component
counts file reads (parses of tokens.txt). -/
def token_load (t : TokenData) (dataPathOk : Bool) (file : Option Str) :
    TokenData × Nat :=
  if t.loaded then (t, 0)
  else
    let t0 : TokenData := ⟨[], [], [], [], [], false⟩
    if dataPathOk = false then (t0, 0)
    else
      match file with
      | none => ({ t0 with loaded := true }, 0)
      | some content =>
        ({ (fgetsSplitF 8191 content).foldl token_load_line t0 with loaded := true }, 1)

/-!
## Validity conditions and concrete inputs
-/

/-- No carriage return and no line feed in a field value. -/
def noCRLF (v : Str) : Prop := ∀ c ∈ v, c ≠ '\r' ∧ c ≠ '\n'

instance (v : Str) : Decidable (noCRLF v) := by
  unfold noCRLF; infer_instance

/-- Conditions under which the part_010 store round-trips: each value
is free of CR and LF, fits its `strncpy` destination (cap−1), and its
whole `key=value` line (newline included) fits one `fgets(2048)` read. -/
def valid_token_set (t : token_data_t) : Prop :=
  (noCRLF t.client_id ∧ t.client_id.length ≤ 511) ∧
  (noCRLF t.client_secret ∧ t.client_secret.length ≤ 511) ∧
  (noCRLF t.auth_code ∧ t.auth_code.length ≤ 255) ∧
  (noCRLF t.access_token ∧ t.access_token.length ≤ 2033) ∧
  (noCRLF t.refresh_token ∧ t.refresh_token.length ≤ 2032) ∧
  (noCRLF t.device_id ∧ t.device_id.length ≤ 127)

instance (t : token_data_t) : Decidable (valid_token_set t) := by
  unfold valid_token_set; infer_instance

/-- A stale in-memory token state: a previous refresh left a non-empty
access token in the static `TOKENS`. -/
def c1_stale : TokenData :=
  { client_id := "id".toList, client_secret := "sec".toList,
    refresh_token := "ref".toList, access_token := "staletoken".toList,
    auth_code := [], loaded := true }

/-- A 200-status OAuth error body with no `access_token` field. -/
def c1_body : Str := "\x7b\"error\":\"invalid_grant\"\x7d".toList

/-- In-memory tokens before an authorization-code exchange: empty
access token, previously stored refresh token. -/
def c4_toks : TokenDataV2 :=
  { client_id := "id".toList, client_secret := "sec".toList,
    refresh_token := "oldrefresh".toList, access_token := [] }

/-- An exchange response carrying only a `refresh_token` (note the
blank before the colon, which the `%*[^:]` scan requires). -/
def c4_body : Str := "\x7b\"refresh_token\" :\"newrefresh\"\x7d".toList

/-- A TokenSet whose `client_id` contains a carriage return but no
newline, as in the wording of the round-trip claim. -/
def c5_bad : token_data_t :=
  { client_id := ('a' :: '\r' :: 'b' :: []), client_secret := "s".toList,
    auth_code := "c".toList, access_token := "t".toList,
    refresh_token := "r".toList, device_id := "d".toList }

/-- A device-status body whose embedded URL runs for 1100 characters
after `https://` before the closing quote. -/
def c6_url_long : Str := httpsLit ++ List.replicate 1100 'a'

def c6_body_long : Str := c6_url_long ++ '"' :: []

/-- The status body of spec Scenario C. -/
def c6_scenario : Str :=
  "...,\"image\":\x7b\"value\":\"https://cdn.example/x.jpg?sig=abc\"\x7d,...".toList

/-- An already-loaded in-memory token state. -/
def c10_loaded : TokenData :=
  { client_id := "cid".toList, client_secret := "cs".toList,
    refresh_token := "rt".toList, access_token := "at".toList,
    auth_code := "ac".toList, loaded := true }

/-!
## Helper lemmas
-/

theorem takeLine_rest_le : ∀ (l : Str) (n : Nat), ((takeLine l n).2).length ≤ l.length := by
  intro l
  induction l with
  | nil => intro n; simp [takeLine]
  | cons c cs ih =>
    intro n
    simp only [takeLine]
    by_cases h0 : n = 0
    · simp [h0]
    · by_cases hnl : c = '\n'
      · simp [h0, hnl]
      · simp only [h0, hnl, if_neg, if_false]
        exact Nat.le_succ_of_le (ih (n - 1))

theorem takeLine_rest_lt (c : Char) (cs : Str) (n : Nat) (h : 0 < n) :
    ((takeLine (c :: cs) n).2).length < (c :: cs).length := by
  simp only [takeLine]
  have h0 : ¬ n = 0 := Nat.pos_iff_ne_zero.mp h
  by_cases hnl : c = '\n'
  · simp [h0, hnl, Nat.lt_succ_self]
  · simp only [h0, hnl, if_neg, if_false, List.length_cons]
    exact Nat.lt_succ_of_le (takeLine_rest_le cs (n - 1))

theorem takeLine_full (l rest : Str) :
    ∀ (n : Nat), l.length < n → '\n' ∉ l →
      takeLine (l ++ '\n' :: rest) n = (l ++ ['\n'], rest) := by
  induction l with
  | nil =>
    intro n hn _
    have h0 : ¬ n = 0 := by omega
    simp [takeLine, h0]
  | cons c cs ih =>
    intro n hn hmem
    have h0 : ¬ n = 0 := by simp at hn; omega
    have hc : ¬ c = '\n' := fun h => hmem (by simp [h])
    have hcs : '\n' ∉ cs := fun h => hmem (List.mem_cons_of_mem c h)
    have hlen : cs.length < n - 1 := by simp at hn; omega
    simp only [List.cons_append, takeLine, h0, hc, if_neg, if_false]
    rw [List.append_eq, ih (n - 1) hlen hcs]

theorem fgetsSplitAux_fuel (cap : Nat) :
    ∀ (n : Nat) (l : Str), l.length ≤ n → ∀ (f1 f2 : Nat),
      l.length ≤ f1 → l.length ≤ f2 →
      fgetsSplitAux cap f1 l = fgetsSplitAux cap f2 l := by
  intro n
  induction n with
  | zero =>
    intro l hl f1 f2 _ _
    have : l = [] := List.length_eq_zero.mp (Nat.le_zero.mp hl)
    subst this
    simp [fgetsSplitAux]
  | succ n ih =>
    intro l hl f1 f2 h1 h2
    cases l with
    | nil => simp [fgetsSplitAux]
    | cons c cs =>
      cases f1 with
      | zero => simp at h1
      | succ f1' =>
        cases f2 with
        | zero => simp at h2
        | succ f2' =>
          simp only [fgetsSplitAux]
          congr 1
          have hlt : ((takeLine (c :: cs) (max cap 1)).2).length < (c :: cs).length :=
            takeLine_rest_lt c cs (max cap 1)
              (Nat.lt_of_lt_of_le Nat.zero_lt_one (Nat.le_max_right cap 1))
          simp only [List.length_cons] at hlt hl h1 h2
          exact ih _ (by omega) f1' f2' (by omega) (by omega)

theorem fgetsSplitF_nil (cap : Nat) : fgetsSplitF cap [] = [] := by
  simp [fgetsSplitF, fgetsSplitAux]

theorem fgetsSplitF_line (cap : Nat) (l rest : Str)
    (hlen : l.length < max cap 1) (hmem : '\n' ∉ l) :
    fgetsSplitF cap (l ++ '\n' :: rest) = (l ++ ['\n']) :: fgetsSplitF cap rest := by
  unfold fgetsSplitF
  have hlen2 : (l ++ '\n' :: rest).length = (l.length + rest.length) + 1 := by
    simp only [List.length_append, List.length_cons]
    omega
  rw [hlen2]
  have hfull := takeLine_full l rest (max cap 1) hlen hmem
  cases hl2 : l ++ '\n' :: rest with
  | nil => exact absurd hl2 (by simp)
  | cons c cs =>
    rw [hl2] at hfull
    simp only [fgetsSplitAux, hfull]
    congr 1
    exact fgetsSplitAux_fuel cap (l.length + rest.length) rest (by omega) _ _
      (by omega) (le_refl _)

theorem takeWhile_append_stop (p : Char → Bool) (l : Str) (x : Char) (r : Str)
    (hl : ∀ c ∈ l, p c = true) (hx : p x = false) :
    (l ++ x :: r).takeWhile p = l := by
  induction l with
  | nil => simp [List.takeWhile, hx]
  | cons c cs ih =>
    have hc : p c = true := hl c (List.mem_cons_self c cs)
    have hcs : ∀ c ∈ cs, p c = true := fun d hd => hl d (List.mem_cons_of_mem c hd)
    simp [List.takeWhile, hc, ih hcs]

theorem drop_append_cons (l : Str) (x : Char) (r : Str) :
    (l ++ x :: r).drop (l.length + 1) = r := by
  have : l ++ x :: r = (l ++ [x]) ++ r := by simp
  rw [this, List.drop_left' (by simp)]

theorem strstr_here (pat l : Str) (h : pat.isPrefixOf l = true) :
    strstr pat l = some l := by
  cases l with
  | nil => simp [strstr, h]
  | cons c cs => simp [strstr, h]

theorem strstr_found_isPrefixOf (pat : Str) :
    ∀ (l s : Str), strstr pat l = some s → pat.isPrefixOf s = true := by
  intro l
  induction l with
  | nil =>
    intro s h
    simp only [strstr] at h
    by_cases hp : pat.isPrefixOf ([] : Str) = true
    · simp [hp] at h; subst h; exact hp
    · simp [hp] at h
  | cons c cs ih =>
    intro s h
    simp only [strstr] at h
    by_cases hp : pat.isPrefixOf (c :: cs) = true
    · simp [hp] at h; subst h; exact hp
    · simp [hp] at h; exact ih s h

/-!
## Claim theorems
-/

/-- C9 (confirmed): the background refresh timer is created with a
fixed 24-hour period (86400 s), and `refresh_timer_cb` returns
`ECORE_CALLBACK_RENEW` on every path — whether the reload of the token
file or the triggered refresh succeeds or fails, the timer stays
scheduled; `app_create` schedules it independently of the credential
check and capture outcomes. -/
theorem c9_refresh_timer_fixed_period_and_persistent :
    (∀ loadOk refreshOk, (refresh_timer_cb loadOk refreshOk).1 = EcoreCb.renew) ∧
    refresh_timer_period = 86400 ∧
    (∀ checkOk captureOk, app_create true checkOk captureOk = (true, 86400)) := by
  refine ⟨fun loadOk refreshOk => ?_, rfl, fun checkOk captureOk => rfl⟩
  unfold refresh_timer_cb
  by_cases h : loadOk <;> simp [h]

/-- C10 (confirmed): `token_load` on a `TokenData` whose `loaded` flag
is set returns immediately — every field unchanged and zero file
reads — so the store file is parsed at most once per process. -/
theorem c10_token_load_idempotent (t : TokenData) (dataPathOk : Bool)
    (file : Option Str) (h : t.loaded = true) :
    token_load t dataPathOk file = (t, 0) := by
  unfold token_load
  simp [h]

theorem c10_token_load_idempotent_witness :
    token_load c10_loaded true (some "access_token=other".toList) = (c10_loaded, 0) :=
  c10_token_load_idempotent c10_loaded true (some "access_token=other".toList) rfl

/-- C3 counterexample: the smartthings_v2.c `http_download_file` fails
(transport error) after partially writing the destination and returns
`false` with the partial file still present — neither absent nor the
previous content. -/
theorem c3_download_leaves_partial_file_v2 :
    http_download_file_v2 true true false "par".toList (some "old".toList) =
      (false, some "par".toList) ∧
    some "par".toList ≠ (none : Option Str) ∧
    some "par".toList ≠ some "old".toList := by
  refine ⟨rfl, by simp, by decide⟩

theorem noCRLF_bool (v : Str) (h : noCRLF v) :
    ∀ c ∈ v, (c != '\r' && c != '\n') = true := by
  intro c hc
  have hcc := h c hc
  simp only [Bool.and_eq_true, bne_iff_ne]
  exact hcc

theorem nl_not_mem_line (key v : Str) (hkey : '\n' ∉ key) (hv : noCRLF v) :
    '\n' ∉ key ++ '=' :: v := by
  intro hmem
  rcases List.mem_append.mp hmem with h | h
  · exact hkey h
  · rcases List.mem_cons.mp h with h | h
    · exact absurd h (by decide)
    · exact (hv '\n' h).2 rfl

theorem max_2047_one : max 2047 1 = 2047 := rfl

theorem line_fits (key v : Str) (h : key.length + v.length ≤ 2045) :
    (key ++ '=' :: v).length < max 2047 1 := by
  simp only [List.length_append, List.length_cons, max_2047_one]
  omega

theorem parseLine_kv (t : token_data_t) (k v : Str)
    (hk : ∀ c ∈ k, (c != '=') = true)
    (hv : ∀ c ∈ v, (c != '\r' && c != '\n') = true) :
    parseLine t ((k ++ '=' :: v) ++ ['\n']) = assignField t k v := by
  have hshape : (k ++ '=' :: v) ++ ['\n'] = k ++ '=' :: (v ++ ['\n']) := by simp
  rw [hshape]
  simp only [parseLine]
  rw [takeWhile_append_stop _ k '=' (v ++ ['\n']) hk (by decide)]
  have hlen : ¬ (k.length = (k ++ '=' :: (v ++ ['\n'])).length) := by
    simp only [List.length_append, List.length_cons]
    omega
  rw [if_neg hlen, drop_append_cons k '=' (v ++ ['\n']),
    takeWhile_append_stop _ v '\n' [] hv (by decide)]

theorem assignField_client_id (t : token_data_t) (v : Str) :
    assignField t "client_id".toList v = { t with client_id := v.take 511 } := by
  unfold assignField
  rw [if_pos rfl]

theorem assignField_client_secret (t : token_data_t) (v : Str) :
    assignField t "client_secret".toList v =
      { t with client_secret := v.take 511 } := by
  unfold assignField
  rw [if_neg (by decide), if_pos rfl]

theorem assignField_auth_code (t : token_data_t) (v : Str) :
    assignField t "auth_code".toList v = { t with auth_code := v.take 255 } := by
  unfold assignField
  rw [if_neg (by decide), if_neg (by decide), if_pos rfl]

theorem assignField_access_token (t : token_data_t) (v : Str) :
    assignField t "access_token".toList v =
      { t with access_token := v.take 4095 } := by
  unfold assignField
  rw [if_neg (by decide), if_neg (by decide), if_neg (by decide), if_pos rfl]

theorem assignField_refresh_token (t : token_data_t) (v : Str) :
    assignField t "refresh_token".toList v =
      { t with refresh_token := v.take 2047 } := by
  unfold assignField
  rw [if_neg (by decide), if_neg (by decide), if_neg (by decide),
    if_neg (by decide), if_pos rfl]

theorem assignField_device_id (t : token_data_t) (v : Str) :
    assignField t "device_id".toList v = { t with device_id := v.take 127 } := by
  unfold assignField
  rw [if_neg (by decide), if_neg (by decide), if_neg (by decide),
    if_neg (by decide), if_neg (by decide), if_pos rfl]

/-- C5 counterexample: a TokenSet whose `client_id` is `a\rb` — no
newline in any value, no `=` in any key — does not round-trip:
`strcspn(val, "\r\n")` truncates the loaded value at the carriage
return. -/
theorem c5_carriage_return_breaks_round_trip :
    load_tokens (save_tokens_content c5_bad) token_data_empty ≠ c5_bad ∧
    (load_tokens (save_tokens_content c5_bad) token_data_empty).client_id
      = 'a' :: [] := by
  have hload : load_tokens (save_tokens_content c5_bad) token_data_empty =
      ⟨'a' :: [], 's' :: [], 'c' :: [], 't' :: [], 'r' :: [], 'd' :: []⟩ := by
    unfold load_tokens save_tokens_content
    dsimp only [c5_bad]
    rw [fgetsSplitF_line 2047 ("client_id".toList ++ '=' :: ('a' :: '\r' :: 'b' :: [])) _
        (by decide) (by decide),
      fgetsSplitF_line 2047 ("client_secret".toList ++ '=' :: "s".toList) _
        (by decide) (by decide),
      fgetsSplitF_line 2047 ("auth_code".toList ++ '=' :: "c".toList) _
        (by decide) (by decide),
      fgetsSplitF_line 2047 ("access_token".toList ++ '=' :: "t".toList) _
        (by decide) (by decide),
      fgetsSplitF_line 2047 ("refresh_token".toList ++ '=' :: "r".toList) _
        (by decide) (by decide),
      fgetsSplitF_line 2047 ("device_id".toList ++ '=' :: "d".toList) _
        (by decide) (by decide),
      fgetsSplitF_nil]
    decide
  refine ⟨by rw [hload]; decide, by rw [hload]⟩

/-- C5 (amended): save-then-load round-trips field-by-field for every
TokenSet whose values contain no LF and no CR, fit their `strncpy`
destinations (511/511/255/4095/2047/127 characters) and whose
`key=value` lines fit one `fgets(2048)` read (which further caps
`access_token` at 2033 and `refresh_token` at 2032 characters). -/
theorem c5_save_load_round_trip (t : token_data_t) (h : valid_token_set t) :
    load_tokens (save_tokens_content t) token_data_empty = t := by
  obtain ⟨⟨h1, h1l⟩, ⟨h2, h2l⟩, ⟨h3, h3l⟩, ⟨h4, h4l⟩, ⟨h5, h5l⟩, ⟨h6, h6l⟩⟩ := h
  unfold save_tokens_content load_tokens
  rw [fgetsSplitF_line 2047 ("client_id".toList ++ '=' :: t.client_id) _
      (line_fits _ _ (by have hk : ("client_id".toList).length = 9 := rfl; omega))
      (nl_not_mem_line _ _ (by decide) h1),
    fgetsSplitF_line 2047 ("client_secret".toList ++ '=' :: t.client_secret) _
      (line_fits _ _ (by have hk : ("client_secret".toList).length = 13 := rfl; omega))
      (nl_not_mem_line _ _ (by decide) h2),
    fgetsSplitF_line 2047 ("auth_code".toList ++ '=' :: t.auth_code) _
      (line_fits _ _ (by have hk : ("auth_code".toList).length = 9 := rfl; omega))
      (nl_not_mem_line _ _ (by decide) h3),
    fgetsSplitF_line 2047 ("access_token".toList ++ '=' :: t.access_token) _
      (line_fits _ _ (by have hk : ("access_token".toList).length = 12 := rfl; omega))
      (nl_not_mem_line _ _ (by decide) h4),
    fgetsSplitF_line 2047 ("refresh_token".toList ++ '=' :: t.refresh_token) _
      (line_fits _ _ (by have hk : ("refresh_token".toList).length = 13 := rfl; omega))
      (nl_not_mem_line _ _ (by decide) h5),
    fgetsSplitF_line 2047 ("device_id".toList ++ '=' :: t.device_id) _
      (line_fits _ _ (by have hk : ("device_id".toList).length = 9 := rfl; omega))
      (nl_not_mem_line _ _ (by decide) h6),
    fgetsSplitF_nil]
  simp only [List.foldl_cons, List.foldl_nil]
  rw [parseLine_kv _ _ _ (by decide) (noCRLF_bool _ h1), assignField_client_id,
    parseLine_kv _ _ _ (by decide) (noCRLF_bool _ h2), assignField_client_secret,
    parseLine_kv _ _ _ (by decide) (noCRLF_bool _ h3), assignField_auth_code,
    parseLine_kv _ _ _ (by decide) (noCRLF_bool _ h4), assignField_access_token,
    parseLine_kv _ _ _ (by decide) (noCRLF_bool _ h5), assignField_refresh_token,
    parseLine_kv _ _ _ (by decide) (noCRLF_bool _ h6), assignField_device_id,
    List.take_of_length_le h1l, List.take_of_length_le h2l,
    List.take_of_length_le h3l,
    List.take_of_length_le (by omega : t.access_token.length ≤ 4095),
    List.take_of_length_le (by omega : t.refresh_token.length ≤ 2047),
    List.take_of_length_le h6l]

theorem c5_save_load_round_trip_witness :
    load_tokens
      (save_tokens_content
        ⟨"id7".toList, "sec7".toList, "au7".toList, "tok7".toList,
          "ref7".toList, "dev7".toList⟩) token_data_empty =
      ⟨"id7".toList, "sec7".toList, "au7".toList, "tok7".toList,
        "ref7".toList, "dev7".toList⟩ :=
  c5_save_load_round_trip
    ⟨"id7".toList, "sec7".toList, "au7".toList, "tok7".toList,
      "ref7".toList, "dev7".toList⟩ (by decide)

theorem takeWhile_append_all (p : Char → Bool) (l r : Str)
    (hl : ∀ c ∈ l, p c = true) : (l ++ r).takeWhile p = l ++ r.takeWhile p := by
  induction l with
  | nil => simp
  | cons c cs ih =>
    have hc : p c = true := hl c (List.mem_cons_self c cs)
    have hcs : ∀ c ∈ cs, p c = true := fun d hd => hl d (List.mem_cons_of_mem c hd)
    simp [List.takeWhile, hc, ih hcs]

/-- C6 counterexample: a status body whose signed URL runs 1108
characters up to the closing quote: the extraction returns only the
first 1023 characters (`%1023[^\"]`), not the substring ending
immediately before the next `"`. -/
theorem c6_long_url_truncated :
    extract_image_url c6_body_long = some (c6_url_long.take 1023) ∧
    c6_url_long.take 1023 ≠ c6_url_long := by
  have hall : ∀ c ∈ c6_url_long, (c != '"') = true := by
    intro c hc
    unfold c6_url_long at hc
    rcases List.mem_append.mp hc with h | h
    · exact (by decide : ∀ c ∈ httpsLit, (c != '"') = true) c h
    · rw [List.eq_of_mem_replicate h]; decide
  constructor
  · unfold extract_image_url
    have hpre : httpsLit.isPrefixOf c6_body_long = true := by
      rw [ List.isPrefixOf_iff_prefix]
      exact ⟨List.replicate 1100 'a' ++ '"' :: [],
        by simp [c6_body_long, c6_url_long, List.append_assoc]⟩
    rw [strstr_here _ _ hpre]
    have htw : c6_body_long.takeWhile (fun c => c != '"') = c6_url_long := by
      unfold c6_body_long
      exact takeWhile_append_stop _ c6_url_long '"' [] hall (by decide)
    dsimp only
    rw [htw]
    have hne : ((c6_url_long.take 1023).isEmpty) = false := rfl
    rw [hne]
    simp
  · intro h
    have hlen := congrArg List.length h
    rw [List.length_take] at hlen
    have h8 : ("https://".toList).length = 8 := rfl
    have hfull : c6_url_long.length = 1108 := by
      unfold c6_url_long httpsLit
      simp [List.length_append, List.length_replicate, h8]
    omega

/-- C6 (amended): the capture workflow's URL extraction returns the
substring starting at the first `https://` occurrence and ending
immediately before the next `"`, provided that substring is at most
1023 characters (the `sscanf` buffer width; longer URLs are truncated
to their first 1023 characters, see the counterexample); with no
`https://` occurrence it returns `none` and the capture aborts; on the
Scenario C body it returns exactly
`https://cdn.example/x.jpg?sig=abc`. -/
theorem c6_url_extraction_to_next_quote :
    (∀ body, strstr httpsLit body = none → extract_image_url body = none) ∧
    (∀ body s, strstr httpsLit body = some s →
      (s.takeWhile (fun c => c != '"')).length ≤ 1023 →
      extract_image_url body = some (s.takeWhile (fun c => c != '"'))) ∧
    extract_image_url c6_scenario = some "https://cdn.example/x.jpg?sig=abc".toList := by
  refine ⟨fun body h => ?_, fun body s hs hle => ?_, by decide⟩
  · unfold extract_image_url
    rw [h]
  · unfold extract_image_url
    rw [hs]
    have hp := strstr_found_isPrefixOf httpsLit body s hs
    rw [ List.isPrefixOf_iff_prefix] at hp
    obtain ⟨tl, htl⟩ := hp
    have hall : ∀ c ∈ httpsLit, (c != '"') = true := by decide
    have htw : s.takeWhile (fun c => c != '"') =
        httpsLit ++ tl.takeWhile (fun c => c != '"') := by
      rw [← htl, takeWhile_append_all _ _ _ hall]
    dsimp only
    rw [List.take_of_length_le hle, htw]
    have hne : ((httpsLit ++ tl.takeWhile (fun c => c != '"')).isEmpty) = false := rfl
    rw [hne]
    simp

theorem c6_url_extraction_to_next_quote_witness :
    extract_image_url "x\"https://a.b/c\"y".toList = some "https://a.b/c".toList := by
  have h := c6_url_extraction_to_next_quote.2.1 "x\"https://a.b/c\"y".toList
    "https://a.b/c\"y".toList (by decide) (by decide)
  rw [h]
  decide

/-- C7 counterexample: part_007's `initialize_token_file`, on first run
(no writable token file), copies the bundled resource file and then
immediately issues a token-refresh HTTP POST; with no network the whole
first-run initialisation fails. -/
theorem c7_part007_refreshes_during_seeding :
    (initialize_token_file_p7 none (some "access_token=seedtok".toList) true []
        none false [] true true).netCalls = 1 ∧
    (initialize_token_file_p7 none (some "access_token=seedtok".toList) true []
        none false [] true true).seeded = true ∧
    (initialize_token_file_p7 none (some "access_token=seedtok".toList) true []
        none false [] true true).ok = false := by
  decide

/-- C7 (amended): in the tokens.c (and Finalv2.c) variant, first-run
initialisation with no writable store performs no network call at all,
and when the bundled resource file exists and the destination can be
created, it seeds the store with exactly the resource content and
succeeds.  The part_007 variant instead attempts a refresh POST right
after copying (see the counterexample). -/
theorem c7_first_run_seeds_by_copy_without_network :
    (∀ resFile readOk readTok deviceResp refreshOk refreshedTok writeOk dstOk
        readOk2 readTok2,
      (initialize_token_file none resFile readOk readTok deviceResp refreshOk
        refreshedTok writeOk dstOk readOk2 readTok2).netCalls = 0) ∧
    (∀ rc readOk readTok deviceResp refreshOk refreshedTok writeOk readOk2
        readTok2,
      (initialize_token_file none (some rc) readOk readTok deviceResp refreshOk
        refreshedTok writeOk true readOk2 readTok2).seeded = true ∧
      (initialize_token_file none (some rc) readOk readTok deviceResp refreshOk
        refreshedTok writeOk true readOk2 readTok2).dataFile = some rc ∧
      (initialize_token_file none (some rc) readOk readTok deviceResp refreshOk
        refreshedTok writeOk true readOk2 readTok2).ok = true) := by
  constructor
  · intro resFile readOk readTok deviceResp refreshOk refreshedTok writeOk dstOk
      readOk2 readTok2
    unfold initialize_token_file
    cases resFile with
    | none => rfl
    | some rc =>
      by_cases hd : dstOk = false <;> simp [hd]
  · intro rc readOk readTok deviceResp refreshOk refreshedTok writeOk readOk2
      readTok2
    unfold initialize_token_file
    simp

/-- C8 counterexample: part_010's `check_tokens_and_refresh` treats any
non-empty in-memory access token as usable immediately — it returns
success with zero refresh, exchange or validation HTTP calls, so a
non-empty but unvalidated token is accepted. -/
theorem c8_nonempty_token_accepted_without_validation :
    check_tokens_and_refresh ⟨[], [], [], "unvalidated".toList, [], []⟩ false false
      = (true, 0, 0) := by
  decide

/-- C8 (amended): in the tokens.c variant, the stored access token is
accepted as-is only when `validate_access_token` succeeded, and
`validate_access_token` succeeds only for a token of at least 10
characters (in particular non-empty) whose authenticated device GET
returned a body; the part_010 variant accepts any non-empty token with
no validation call (see the counterexample). -/
theorem c8_stored_token_used_only_after_validation :
    (∀ content resFile readOk readTok deviceResp refreshOk refreshedTok writeOk
        dstOk readOk2 readTok2,
      (initialize_token_file (some content) resFile readOk readTok deviceResp
        refreshOk refreshedTok writeOk dstOk readOk2 readTok2).usedStored = true →
      validate_access_token readTok deviceResp = true) ∧
    (∀ (tok : Str) (r : Option Str), validate_access_token tok r = true →
      10 ≤ tok.length ∧ r.isSome = true) := by
  constructor
  · intro content resFile readOk readTok deviceResp refreshOk refreshedTok
      writeOk dstOk readOk2 readTok2 h
    unfold initialize_token_file at h
    by_cases h1 : readOk = false
    · simp [h1] at h
    · by_cases h2 : validate_access_token readTok deviceResp = true
      · exact h2
      · by_cases h3 : refreshOk = true
        · by_cases h4 : writeOk = true <;> simp [h1, h2, h3, h4] at h
        · simp [h1, h2, h3] at h
  · intro tok r h
    unfold validate_access_token at h
    by_cases hl : tok.length < 10
    · simp [hl] at h
    · cases r with
      | none => simp [hl] at h
      | some resp => exact ⟨by omega, rfl⟩

theorem c8_stored_token_used_only_after_validation_witness :
    validate_access_token "longtoken123".toList
      (some "... components ...".toList) = true :=
  c8_stored_token_used_only_after_validation.1 "c".toList none true
    "longtoken123".toList (some "... components ...".toList) true []
    true true true [] (by decide)

/-- C1 counterexample: with a stale non-empty access token in memory,
`token_request` on a 200 response whose body has no `access_token`
field returns success (and re-saves the stale tokens) instead of
failing. -/
theorem c1_stale_token_masks_parse_failure :
    strstr accessKey c1_body = none ∧
    c1_stale.access_token ≠ [] ∧
    (token_request c1_stale (some (token_save_content c1_stale)) (some c1_body)).1
      = true := by
  decide

/-- C1 (amended): `token_request` fails exactly when the in-memory
access token is empty after parsing.  On the normal path — the
in-memory access token empty before the call — a response with an
absent or empty `access_token` (the scan never yields an empty value)
makes the operation fail, HTTP status notwithstanding, and leaves the
store untouched.  A stale non-empty in-memory token, however, masks the
parse failure (see the counterexample). -/
theorem c1_empty_access_token_fails_token_request :
    (∀ (t : TokenData) (store : Option Str) (body : Str),
      t.access_token = [] → extractJsonField 4095 accessKey body = none →
        (token_request t store (some body)).1 = false ∧
        (token_request t store (some body)).2.2 = store) ∧
    (∀ (cap : Nat) (key body v : Str), 0 < cap →
      extractJsonField cap key body = some v → v ≠ []) := by
  constructor
  · intro t store body hpre hext
    unfold token_request
    simp only [hext]
    cases hr : extractJsonField 1023 refreshKey body <;> simp [hr, hpre]
  · intro cap key body v hcap h
    unfold extractJsonField at h
    cases hs : strstr key body with
    | none => rw [hs] at h; exact absurd h (by simp)
    | some s =>
      rw [hs] at h
      unfold scanTokenValue at h
      by_cases hskip : (((s.drop key.length).takeWhile (fun c => c != ':'))).isEmpty
      · simp [hskip] at h
      · simp only [hskip, Bool.false_eq_true, if_false] at h
        split at h
        · rename_i rest2 _
          by_cases hv : ((rest2.takeWhile (fun c => c != '"'))).isEmpty
          · simp [hv] at h
          · simp only [hv, Bool.false_eq_true, if_false, Option.some.injEq] at h
            subst h
            intro hnil
            rcases List.take_eq_nil_iff.mp hnil with h0 | h0
            · exact absurd h0 (by omega)
            · rw [List.isEmpty_iff] at hv
              exact hv h0
        · exact absurd h (by simp)

theorem c1_empty_access_token_fails_token_request_witness :
    (token_request ⟨"id".toList, "sec".toList, "ref".toList, [], [], true⟩
        (some "keep".toList) (some "nobody".toList)).1 = false ∧
    (token_request ⟨"id".toList, "sec".toList, "ref".toList, [], [], true⟩
        (some "keep".toList) (some "nobody".toList)).2.2 = some "keep".toList :=
  c1_empty_access_token_fails_token_request.1
    ⟨"id".toList, "sec".toList, "ref".toList, [], [], true⟩
    (some "keep".toList) "nobody".toList rfl (by decide)

/-- C4 counterexample: `exchange_authorization_code` persists the
TokenSet before checking the parse, so a response with only a
`refresh_token` makes it rewrite the store (clobbering the previous
refresh token) and still return failure. -/
theorem c4_exchange_persists_despite_parse_failure :
    (exchange_authorization_code c4_toks (some (save_tokens_v2_content c4_toks))
        (some c4_body)).1 = false ∧
    (exchange_authorization_code c4_toks (some (save_tokens_v2_content c4_toks))
        (some c4_body)).2.2 ≠ some (save_tokens_v2_content c4_toks) := by
  decide

/-- C4 (amended): `token_request` (part_000, used for both refresh and
exchange) persists only after a fully successful parse: on failure the
store is untouched, and on success the store holds exactly the
serialisation of the fully parsed TokenSet.  The
`exchange_authorization_code` variant of smartthings_v2.c instead saves
before its success check (see the counterexample). -/
theorem c4_token_request_saves_only_after_parse (t : TokenData)
    (store : Option Str) (response : Option Str) :
    ((token_request t store response).1 = false →
      (token_request t store response).2.2 = store) ∧
    ((token_request t store response).1 = true →
      (token_request t store response).2.2 =
        some (token_save_content (token_request t store response).2.1)) := by
  unfold token_request
  cases response with
  | none => exact ⟨fun _ => rfl, fun h => absurd h (by simp)⟩
  | some body =>
    dsimp only
    split
    · exact ⟨fun _ => rfl, fun h => absurd h (by simp)⟩
    · exact ⟨fun h => absurd h (by simp), fun _ => rfl⟩

theorem c4_token_request_saves_only_after_parse_witness :
    (token_request ⟨"i".toList, "s".toList, "r".toList, [], [], true⟩
        (some "prev".toList) none).2.2 = some "prev".toList :=
  (c4_token_request_saves_only_after_parse
      ⟨"i".toList, "s".toList, "r".toList, [], [], true⟩
      (some "prev".toList) none).1 rfl

/-- C3 (amended): the part_000 `http_download_file` never leaves a
partial file: whenever it fails (transport error or, via
`CURLOPT_FAILONERROR`, HTTP status ≥ 400), the destination is either
removed (`unlink`) or — when the transfer never started because init
or `fopen` failed — untouched. -/
theorem c3_download_removes_partial_file (curlInit fopenOk transportOk : Bool)
    (httpCode : Nat) (written : Str) (fs : Option Str)
    (h : (http_download_file curlInit fopenOk transportOk httpCode written fs).1 = false) :
    (http_download_file curlInit fopenOk transportOk httpCode written fs).2 = none ∨
    (http_download_file curlInit fopenOk transportOk httpCode written fs).2 = fs := by
  unfold http_download_file at h ⊢
  by_cases h1 : curlInit = false
  · simp [h1]
  · by_cases h2 : fopenOk = false
    · simp [h1, h2]
    · by_cases h3 : (transportOk && decide (httpCode < 400)) = true
      · simp [h1, h2, h3] at h
      · simp [h1, h2, h3]

/-- C2 (confirmed): in `perform_api_call`, a 401 on the first request
triggers exactly one token refresh attempt; the failing call is
reissued exactly once and only when the refresh succeeded; a second 401
(or a failed refresh) makes the operation fail with no further refresh
or retry.  A non-401 first response involves no refresh.  Moreover
`take_image_capture` invokes the command step exactly once, so the
retry never re-executes the rest of the multi-step sequence. -/
theorem c2_single_refresh_single_retry_on_401 :
    (∀ (token : Str) (r1 : HttpResp) (refreshOk : Bool) (r2 : HttpResp),
      token ≠ [] →
        (r1.code = 401 →
          (perform_api_call true true token r1 refreshOk r2).refreshes = 1 ∧
          (perform_api_call true true token r1 refreshOk r2).requests ≤ 2 ∧
          (refreshOk = false →
            (perform_api_call true true token r1 refreshOk r2).ok = false ∧
            (perform_api_call true true token r1 refreshOk r2).requests = 1) ∧
          (refreshOk = true →
            (perform_api_call true true token r1 refreshOk r2).requests = 2 ∧
            (r2.code = 401 →
              (perform_api_call true true token r1 refreshOk r2).ok = false))) ∧
        (r1.code ≠ 401 →
          (perform_api_call true true token r1 refreshOk r2).refreshes = 0 ∧
          (perform_api_call true true token r1 refreshOk r2).requests = 1)) ∧
    (∀ token cmdR1 cmdRef cmdR2 stR1 stRef stR2 dlOk,
      (take_image_capture token cmdR1 cmdRef cmdR2 stR1 stRef stR2 dlOk).commandCalls = 1) := by
  constructor
  · intro token r1 refreshOk r2 htok
    have hemp : token.isEmpty = false := by
      cases token with
      | nil => exact absurd rfl htok
      | cons c cs => rfl
    have hred : perform_api_call true true token r1 refreshOk r2 =
        if r1.code = 401 then
          if refreshOk then
            ⟨r2.body.isSome && is2xx r2.code, 2, 1, r2.code, r2.body⟩
          else
            ⟨r1.body.isSome && is2xx r1.code, 1, 1, r1.code, r1.body⟩
        else ⟨r1.body.isSome && is2xx r1.code, 1, 0, r1.code, r1.body⟩ := by
      unfold perform_api_call
      simp [hemp]
    constructor
    · intro h401
      rw [hred]
      simp only [h401, if_pos]
      cases refreshOk
      · simp [is2xx]
      · refine ⟨by simp, by simp, by simp, fun _ => ⟨by simp, fun h2 => ?_⟩⟩
        simp [h2, is2xx]
    · intro hne
      rw [hred]
      simp [hne]
  · intro token cmdR1 cmdRef cmdR2 stR1 stRef stR2 dlOk
    unfold take_image_capture
    dsimp only
    split
    · rfl
    · split
      · rfl
      · split
        · rfl
        · split
          · rfl
          · rfl

theorem c2_single_refresh_single_retry_on_401_witness :
    (perform_api_call true true "tok".toList ⟨some "x".toList, 401⟩ true
      ⟨some "y".toList, 401⟩).refreshes = 1 ∧
    (perform_api_call true true "tok".toList ⟨some "x".toList, 401⟩ true
      ⟨some "y".toList, 401⟩).requests = 2 ∧
    (perform_api_call true true "tok".toList ⟨some "x".toList, 401⟩ true
      ⟨some "y".toList, 401⟩).ok = false := by
  have h :=
    (c2_single_refresh_single_retry_on_401.1 "tok".toList ⟨some "x".toList, 401⟩
      true ⟨some "y".toList, 401⟩ (by decide)).1 rfl
  exact ⟨h.1, (h.2.2.2 rfl).1, (h.2.2.2 rfl).2 rfl⟩

theorem c3_download_removes_partial_file_witness :
    (http_download_file true true false 0 "par".toList (some "old".toList)).2 = none ∨
    (http_download_file true true false 0 "par".toList (some "old".toList)).2 =
      some "old".toList :=
  c3_download_removes_partial_file true true false 0 "par".toList
    (some "old".toList) rfl
